import Mathlib

/-!
Verification of the document classification and case-registration pipeline
of the mdc-bot repository (a Telegram "Mesa de Partes" document-intake bot).

The TypeScript sources are shallowly embedded: JavaScript strings become
`String`, JS numbers in counting/size positions become `Nat` (or `Int` where
negative values are representable), `number` scores computed by exact
decimal additions become `ℚ`, thrown exceptions become `Except`/`Option`,
and the Google-Sheets row store becomes `List (List String)`.  JS helper
semantics (`String.prototype.includes`, `parseInt`, `toLowerCase`,
`Array.prototype.findIndex`, falsy-default `x || d`, index assignment
`a[i] = v`) are modelled by the `js*` functions below.
-/

/-! ## JavaScript primitive model -/

/-- Boolean list-prefix test (structural, kernel-reducible). -/
def esPrefijo : List Char → List Char → Bool
  | [], _ => true
  | _ :: _, [] => false
  | a :: as, b :: bs => a == b && esPrefijo as bs

/-- Boolean list-infix test (structural, kernel-reducible). -/
def esInfijo (sub : List Char) : List Char → Bool
  | [] => esPrefijo sub []
  | b :: bs => esPrefijo sub (b :: bs) || esInfijo sub bs

/-- Model of JS `hay.includes(sub)`. -/
def jsIncludes (hay sub : String) : Bool :=
  esInfijo sub.data hay.data

/-- Model of JS `s.toLowerCase()` (faithful on the ASCII data this code handles). -/
def jsToLower (s : String) : String :=
  ⟨s.data.map Char.toLower⟩

/-- Model of the JS falsy-default idiom `s || d` on strings. -/
def jsOr (s d : String) : String :=
  if s = "" then d else s

/-- Decimal digit characters of a natural number, fuelled to stay structural. -/
def renderNatAux : Nat → Nat → List Char
  | 0, _ => []
  | fuel + 1, n =>
    if n < 10 then [Nat.digitChar n]
    else renderNatAux fuel (n / 10) ++ [Nat.digitChar (n % 10)]

/-- Decimal character rendering of a natural number. -/
def renderNatChars (n : Nat) : List Char :=
  renderNatAux (n + 1) n

/-- Decimal string rendering of a natural number (JS `String(n)`). -/
def renderNat (n : Nat) : String :=
  ⟨renderNatChars n⟩

/-- Decimal character rendering of an integer. -/
def renderIntChars : Int → List Char
  | Int.ofNat n => renderNatChars n
  | Int.negSucc m => '-' :: renderNatChars (m + 1)

/-- Decimal string rendering of an integer (JS `String(i)`). -/
def renderInt (i : Int) : String :=
  ⟨renderIntChars i⟩

/-- Left fold accumulating decimal digits. -/
def parseDigitsAux (acc : Nat) : List Char → Nat
  | [] => acc
  | c :: cs => parseDigitsAux (acc * 10 + (c.toNat - 48)) cs

/-- Value of the leading digit run, `none` when there is no leading digit. -/
def parseLeadingDigits (cs : List Char) : Option Nat :=
  let ds := cs.takeWhile Char.isDigit
  if ds = [] then none else some (parseDigitsAux 0 ds)

/-- Character-level body of `jsParseInt`. -/
def jsParseIntChars (cs0 : List Char) : Option Int :=
  match cs0.dropWhile (fun c => c == ' ') with
  | [] => none
  | c :: rest =>
    if c == '-' then (parseLeadingDigits rest).map (fun n => -(n : Int))
    else if c == '+' then (parseLeadingDigits rest).map (fun n => (n : Int))
    else (parseLeadingDigits (c :: rest)).map (fun n => (n : Int))

/-- Model of JS `parseInt(s)` (base 10): skip leading spaces, optional sign,
then the maximal digit run; `none` models `NaN`. -/
def jsParseInt (s : String) : Option Int :=
  jsParseIntChars s.data

/-- Model of JS array index assignment `a[i] = v` on a string array: positions
between the old length and `i` are filled (JS holes, serialized as empty cells). -/
def jsSetAt : List String → Nat → String → List String
  | [], 0, v => [v]
  | [], i + 1, v => "" :: jsSetAt [] i v
  | _ :: tl, 0, v => v :: tl
  | hd :: tl, i + 1, v => hd :: jsSetAt tl i v

/-- Model of JS `Array.prototype.findIndex` (−1 becomes `none`). -/
def jsFindIndex (p : α → Bool) : List α → Option Nat
  | [] => none
  | a :: as => if p a then some 0 else (jsFindIndex p as).map (fun i => i + 1)

/-- Model of JS `String(n).padStart(2, '0')` for a number `n`. -/
def pad2 (n : Nat) : String :=
  let s := renderNat n
  if s.length < 2 then "0" ++ s else s

/-- Model of JS `Array.prototype.join(sep)`. -/
def joinSep (sep : String) : List String → String
  | [] => ""
  | [x] => x
  | x :: xs => x ++ sep ++ joinSep sep xs

/-! ## Data model (src/types/index.ts) -/

/-- Access levels of `AccesoNivel`. -/
inductive AccesoNivel where
  | Admin | Super | User | Guest
deriving DecidableEq, Repr

/-- Coarse file categories of `TipoArchivo`. -/
inductive TipoArchivo where
  | pdf | imagen | documento | desconocido
deriving DecidableEq, Repr

/-- TS `UsuarioCompleto` (requester profile). -/
structure UsuarioCompleto where
  telegram_id : String
  nombre : String
  apellido_paterno : String
  apellido_materno : String
  area : String
  cargo : String
  acceso : AccesoNivel
  email : String
  telefono : String
  nombre_completo : String
  es_interno : Bool
  es_admin : Bool
deriving DecidableEq, Repr

/-- TS `ArchivoInfo` (normalized file descriptor). -/
structure ArchivoInfo where
  file_id : String
  file_name : String
  file_size : Nat
  mime_type : String
  tipo_detectado : TipoArchivo
  extension : String
  es_procesable : Bool
deriving DecidableEq, Repr

/-- TS `AnalisisDocumento` (classification decision).  The TS union-typed fields
are runtime strings and are embedded as such; the JS `number` confidence is
embedded as an exact rational. -/
structure AnalisisDocumento where
  tipo : String
  area_responsable : String
  prioridad : String
  tiempo_estimado : String
  observaciones : String
  asunto_detectado : String
  requiere_revision : Bool
  confianza : ℚ

/-- TS `Expediente` (persisted case record).  TS string-union fields are runtime
strings; the `number` fields `exp` and `folios` are embedded as integers. -/
structure Expediente where
  tipo : String
  exp : Int
  doc : String
  folios : Int
  fecha_recepcion : String
  hora : String
  fecha_emision : String
  tipo_documento : String
  nro_documento : String
  emisor_responsable : String
  emisor_area : String
  asunto : String
  referencia : String
  prioridad : String
  estado : String
  derivado_area : String
  derivado_responsable : String
  tipo_derivado : String
deriving DecidableEq, Repr

/-! ## Configuration (src/config/index.ts) -/

namespace Config

/-- TS `Config.maxFileSize`: 20 MiB in bytes. -/
def maxFileSize : Nat := 20 * 1024 * 1024

/-- TS `Config.supportedExtensions`. -/
def supportedExtensions : List String := ["pdf", "jpg", "jpeg", "png", "gif", "webp"]

/-- TS `Config.supportedMimeTypes`. -/
def supportedMimeTypes : List String :=
  ["application/pdf", "image/jpeg", "image/png", "image/gif", "image/webp"]

/-- TS `Config.defaultArea`. -/
def defaultArea : String := "Mesa de Partes"

end Config

/-! ## TelegramService (src/services/telegram-service.ts) -/

namespace TelegramService

/-- TS `TelegramService.esArchivoProcesable`: extension allow-listed, category
recognized, and size within `Config.maxFileSize`. -/
def esArchivoProcesable (archivoInfo : ArchivoInfo) : Bool :=
  Config.supportedExtensions.contains archivoInfo.extension &&
  !(archivoInfo.tipo_detectado == TipoArchivo.desconocido) &&
  decide (archivoInfo.file_size ≤ Config.maxFileSize)

end TelegramService

/-! ## AnalisisService: rule-based classifier (src/services/analisis-service.ts) -/

namespace AnalisisService

/-- Urgency keywords of `calcularPrioridad`. -/
def palabrasUrgentes : List String := ["urgente", "inmediato", "emergencia", "critico"]

/-- High-priority keywords of `calcularPrioridad`. -/
def palabrasAltas : List String := ["importante", "prioridad", "rapido"]

/-- TS `AnalisisService.calcularPrioridad` (the `archivoInfo` parameter is unused
in the source body and kept for fidelity). -/
def calcularPrioridad (nombreArchivo : String) (usuario : UsuarioCompleto)
    (archivoInfo : ArchivoInfo) : String :=
  let nombreLower := jsToLower nombreArchivo
  if palabrasUrgentes.any (fun palabra => jsIncludes nombreLower palabra) then
    "Muy Urgente"
  else if palabrasAltas.any (fun palabra => jsIncludes nombreLower palabra) ||
      usuario.acceso == AccesoNivel.Admin || usuario.acceso == AccesoNivel.Super then
    "Alta"
  else if jsIncludes nombreLower "saludo" || jsIncludes nombreLower "felicitacion" then
    "Baja"
  else
    "Media"

/-- Keyword table of `detectarTipoDocumento` (`Object.entries` order). -/
def tiposPorNombre : List (String × String) :=
  [("oficio", "Oficio"), ("informe", "Informe"), ("solicitud", "Solicitud"),
   ("memorando", "Memorando"), ("carta", "Carta"), ("constancia", "Constancia"),
   ("certificado", "Certificado"), ("resolucion", "Resolución"),
   ("decreto", "Decreto"), ("ordenanza", "Ordenanza")]

/-- TS `AnalisisService.detectarTipoDocumento`: filename keywords first (in table
order), then message kind, then extension. -/
def detectarTipoDocumento (archivoInfo : ArchivoInfo) (tipoMensaje : Option String) : String :=
  let nombre := jsToLower archivoInfo.file_name
  match tiposPorNombre.find? (fun kv => jsIncludes nombre kv.1) with
  | some kv => kv.2
  | none =>
    if tipoMensaje == some "foto" then "Documento fotografiado"
    else if archivoInfo.extension == "pdf" then "Documento PDF"
    else if ["jpg", "jpeg", "png"].contains archivoInfo.extension then
      "Imagen - Documento escaneado"
    else "Documento"

/-- Internal-requester routing table of `determinarAreaResponsable`
(`areasPorTipo`, keyed on the detected type, values may be the requester's area). -/
def areasPorTipo (usuario : UsuarioCompleto) : List (String × String) :=
  [("informe", "Secretaría General"), ("oficio", "Secretaría General"),
   ("solicitud", usuario.area), ("memorando", usuario.area),
   ("resolucion", "Secretaría General"), ("decreto", "Secretaría General")]

/-- External-requester routing table of `determinarAreaResponsable`
(`areasPorPalabra`, keyed on filename keywords). -/
def areasPorPalabra : List (String × String) :=
  [("obras", "Sub Gerencia de Infraestructura y Obras Públicas"),
   ("infraestructura", "Sub Gerencia de Infraestructura y Obras Públicas"),
   ("construccion", "Sub Gerencia de Infraestructura y Obras Públicas"),
   ("pista", "Sub Gerencia de Infraestructura y Obras Públicas"),
   ("vereda", "Sub Gerencia de Infraestructura y Obras Públicas"),
   ("desarrollo", "Sub Gerencia de Desarrollo Social y Comunal"),
   ("social", "Sub Gerencia de Desarrollo Social y Comunal"),
   ("comunal", "Sub Gerencia de Desarrollo Social y Comunal"),
   ("educacion", "Sub Gerencia de Desarrollo Social y Comunal"),
   ("salud", "Sub Gerencia de Desarrollo Social y Comunal"),
   ("ambiental", "Sub Gerencia de Desarrollo Económico y Gestión Ambiental"),
   ("economico", "Sub Gerencia de Desarrollo Económico y Gestión Ambiental"),
   ("comercio", "Sub Gerencia de Desarrollo Económico y Gestión Ambiental"),
   ("turismo", "Sub Gerencia de Desarrollo Económico y Gestión Ambiental"),
   ("logistica", "Oficina de Logística y Recursos Humanos"),
   ("recursos", "Oficina de Logística y Recursos Humanos"),
   ("personal", "Oficina de Logística y Recursos Humanos"),
   ("tesoreria", "Responsable de Tesorería y Rentas"),
   ("pago", "Responsable de Tesorería y Rentas"),
   ("tributo", "Responsable de Tesorería y Rentas"),
   ("impuesto", "Responsable de Tesorería y Rentas")]

/-- TS `AnalisisService.determinarAreaResponsable`. -/
def determinarAreaResponsable (nombreArchivo : String) (usuario : UsuarioCompleto)
    (tipoDocumento : String) : String :=
  if usuario.es_interno then
    let tipoLower := jsToLower tipoDocumento
    match (areasPorTipo usuario).find? (fun kv => jsIncludes tipoLower kv.1) with
    | some kv => kv.2
    | none => usuario.area
  else
    match areasPorPalabra.find? (fun kv => jsIncludes nombreArchivo kv.1) with
    | some kv => kv.2
    | none => "Mesa de Partes"

/-- TS `AnalisisService.detectarAsunto`'s extension stripping,
`nombreArchivo.replace(/\.[^/.]+$/, '')`: remove a final dot-segment that is
non-empty and free of `.` and `/`. -/
def quitarExtension (s : String) : String :=
  let r := s.data.reverse
  let seg := r.takeWhile (fun c => !(c == '.') && !(c == '/'))
  match r.drop seg.length with
  | '.' :: before => if seg.isEmpty then s else ⟨before.reverse⟩
  | _ => s

/-- TS `AnalisisService.detectarAsunto`. -/
def detectarAsunto (nombreArchivo : String) (tipoDocumento : String)
    (tipoMensaje : Option String) : String :=
  if 20 < nombreArchivo.length && !jsIncludes nombreArchivo "_" &&
      !jsIncludes nombreArchivo "documento" then
    quitarExtension nombreArchivo
  else if tipoMensaje == some "foto" then "Documento capturado con cámara"
  else tipoDocumento ++ " recibido"

/-- TS `AnalisisService.generarObservaciones` (array build then `join('. ')`). -/
def generarObservaciones (archivoInfo : ArchivoInfo) (usuario : UsuarioCompleto)
    (tipoMensaje : Option String) : String :=
  let l0 := ["Enviado por " ++ usuario.cargo ++ " de " ++ usuario.area]
  let l1 := if tipoMensaje == some "foto" then
    l0 ++ ["Documento fotografiado desde dispositivo móvil"] else l0
  let l2 := if decide (5 * 1024 * 1024 < archivoInfo.file_size) then
    l1 ++ ["Archivo de gran tamaño"] else l1
  let l3 := if archivoInfo.tipo_detectado == TipoArchivo.pdf then
    l2 ++ ["Documento en formato PDF"] else l2
  joinSep ". " l3

/-- TS `AnalisisService.requiereRevisionManual`. -/
def requiereRevisionManual (nombreArchivo : String) (archivoInfo : ArchivoInfo)
    (usuario : UsuarioCompleto) : Bool :=
  !usuario.es_interno ||
  decide (10 * 1024 * 1024 < archivoInfo.file_size) ||
  jsIncludes nombreArchivo "documento" ||
  jsIncludes nombreArchivo "archivo" ||
  archivoInfo.tipo_detectado == TipoArchivo.desconocido

/-- TS `AnalisisService.calcularConfianza`, with the JS `number` additions
embedded exactly in `ℚ`. -/
def calcularConfianza (archivoInfo : ArchivoInfo) (usuario : UsuarioCompleto) : ℚ :=
  let confianza : ℚ := 7/10
  let confianza := if usuario.es_interno then confianza + 1/10 else confianza
  let confianza := if !(archivoInfo.tipo_detectado == TipoArchivo.desconocido) then
    confianza + 1/10 else confianza
  let confianza := if decide (10 < archivoInfo.file_name.length) then
    confianza + 1/20 else confianza
  let confianza := if [TipoArchivo.pdf, TipoArchivo.imagen].contains archivoInfo.tipo_detectado then
    confianza + 1/20 else confianza
  min confianza 1

/-- Turnaround table of `calcularTiempoEstimado` (`Record<PrioridadNivel, string>`). -/
def tiempos : List (String × String) :=
  [("Muy Urgente", "24 horas"), ("Alta", "1-2 días hábiles"),
   ("Media", "3-5 días hábiles"), ("Baja", "5-7 días hábiles")]

/-- TS `AnalisisService.calcularTiempoEstimado`; `none` models the `undefined`
of a lookup outside the record's keys (unreachable from `calcularPrioridad`). -/
def calcularTiempoEstimado (prioridad : String) : Option String :=
  (tiempos.find? (fun kv => kv.1 == prioridad)).map (fun kv => kv.2)

/-- TS `AnalisisService.analizarLocal`: the rule-based classification strategy. -/
def analizarLocal (archivoInfo : ArchivoInfo) (usuario : UsuarioCompleto)
    (tipoMensaje : Option String) : AnalisisDocumento :=
  let nombreArchivo := jsToLower archivoInfo.file_name
  let tipoDetectado := detectarTipoDocumento archivoInfo tipoMensaje
  let areaResponsable := determinarAreaResponsable nombreArchivo usuario tipoDetectado
  let prioridad := calcularPrioridad nombreArchivo usuario archivoInfo
  { tipo := tipoDetectado,
    area_responsable := areaResponsable,
    prioridad := prioridad,
    tiempo_estimado := (calcularTiempoEstimado prioridad).getD "undefined",
    observaciones := generarObservaciones archivoInfo usuario tipoMensaje,
    asunto_detectado := detectarAsunto nombreArchivo tipoDetectado tipoMensaje,
    requiere_revision := requiereRevisionManual nombreArchivo archivoInfo usuario,
    confianza := calcularConfianza archivoInfo usuario }

/-- Parsed object shape of the JSON block extracted from the Claude response by
`procesarRespuestaClaude` (the regex/`JSON.parse` extraction itself is an
external-library step; the embedding starts from the parsed object). -/
structure ClaudeAnalisis where
  area_responsable : String
  prioridad : String
  asunto_detectado : String
  observaciones : String
  confianza : ℚ

/-- Allowed-area list of `validarArea`. -/
def areasValidas : List String :=
  ["Mesa de Partes", "Recursos Humanos", "Administración", "Tecnología",
   "Legal", "Contabilidad", "Logística", "Gerencia"]

/-- TS `AnalisisService.validarArea`: case-insensitive allow-list lookup with
`config.defaultArea` fallback. -/
def validarArea (area : String) : String :=
  (areasValidas.find? (fun a => jsToLower a == jsToLower area)).getD Config.defaultArea

/-- TS `AnalisisService.validarPrioridad`: case-insensitive allow-list lookup with
"Media" fallback. -/
def validarPrioridad (prioridad : String) : String :=
  ((["Alta", "Media", "Baja"] : List String).find?
    (fun p => jsToLower p == jsToLower prioridad)).getD "Media"

/-- Model of `(q).toFixed(1)` on the rational embedding of JS numbers. -/
def toFixed1 (q : ℚ) : String :=
  let n : Int := round (q * 10)
  (if n < 0 then "-" else "") ++ renderNat (n.natAbs / 10) ++ "." ++ renderNat (n.natAbs % 10)

/-- TS `AnalisisService.procesarRespuestaClaude`, success path: map the parsed
Claude object onto an `AnalisisDocumento`.  The area and priority are
validated; the confidence is copied through unvalidated (`|| 0.8` on falsy). -/
def procesarRespuestaClaude (analisisClaude : ClaudeAnalisis) (archivoInfo : ArchivoInfo)
    (usuario : UsuarioCompleto) : AnalisisDocumento :=
  { tipo := detectarTipoDocumento archivoInfo none,
    area_responsable := validarArea analisisClaude.area_responsable,
    prioridad := validarPrioridad analisisClaude.prioridad,
    tiempo_estimado := (calcularTiempoEstimado analisisClaude.prioridad).getD "undefined",
    observaciones := "Análisis IA (confianza: " ++ toFixed1 (analisisClaude.confianza * 100)
      ++ "%) - " ++ jsOr analisisClaude.observaciones "",
    asunto_detectado := jsOr analisisClaude.asunto_detectado
      (detectarAsunto archivoInfo.file_name (detectarTipoDocumento archivoInfo none) none),
    requiere_revision := decide (analisisClaude.confianza < 8/10),
    confianza := if analisisClaude.confianza = 0 then 8/10 else analisisClaude.confianza }

end AnalisisService

/-! ## ExpedienteService (src/unnamed/part_004, ExpedienteService.ts) -/

/-- The wall-clock instant observed through JS `Date` accessors: `month` is
already the 1-based `getMonth() + 1`; `fechaLocale`/`horaLocale` are the
opaque `toLocaleDateString`/`toLocaleTimeString` renderings. -/
structure Ahora where
  year : Nat
  month : Nat
  day : Nat
  hour : Nat
  minute : Nat
  second : Nat
  fechaLocale : String
  horaLocale : String
deriving DecidableEq, Repr

/-- Outcome environment of the Google-Sheets collaborator calls made during a
registration: `rangoFilasUtilizadas` is `obtenerRangoUtilizado(...).filas`
(`none` models a thrown error), `nowMs` is `Date.now()` for the sequential
fallback, and `appendError` is the message of an `agregarFila` throw
(`none` models success). -/
structure SheetsEnv where
  rangoFilasUtilizadas : Option Nat
  nowMs : Nat
  appendError : Option String
deriving DecidableEq, Repr

namespace ExpedienteService

/-- TS `ExpedienteService.generarNumeroExpediente`: the year, a dash, then MMDDHHMMSS from the
current timestamp, each component zero-padded to two digits. -/
def generarNumeroExpediente (ahora : Ahora) : String :=
  renderNat ahora.year ++ "-" ++ pad2 ahora.month ++ pad2 ahora.day ++
    pad2 ahora.hour ++ pad2 ahora.minute ++ pad2 ahora.second

/-- TS `ExpedienteService.generarCodigoDocumento`: "E"/"C" prefix plus the
sequential number. -/
def generarCodigoDocumento (tipoExpediente : String) (numeroSecuencial : Int) : String :=
  let prefijo := if tipoExpediente == "Externo" then "E" else "C"
  prefijo ++ "-" ++ renderInt numeroSecuencial

/-- TS `ExpedienteService.obtenerProximoNumeroSecuencial`: used-row count of the
sheet, with the `Date.now() % 10000` fallback when that lookup throws. -/
def obtenerProximoNumeroSecuencial (env : SheetsEnv) : Nat :=
  match env.rangoFilasUtilizadas with
  | some n => n
  | none => env.nowMs % 10000

/-- TS `ExpedienteService.detectarTipoDocumento` (private): filename keywords,
then file category, defaulting to "Formulario".  The `analisis` parameter is
unused in the source body and kept for fidelity. -/
def detectarTipoDocumento (archivoInfo : ArchivoInfo) (analisis : AnalisisDocumento) : String :=
  let nombre := jsToLower archivoInfo.file_name
  if jsIncludes nombre "oficio" then "Oficio"
  else if jsIncludes nombre "informe" then "Informe"
  else if jsIncludes nombre "solicitud" then "Solicitud"
  else if jsIncludes nombre "memorando" then "Memorando"
  else if archivoInfo.tipo_detectado == TipoArchivo.imagen then "Formulario"
  else "Formulario"

/-- TS `ExpedienteService.expedienteAFila`: the 18 record fields in column order
(numbers in their decimal rendering), then the case identifier, the original
filename, and the observations (`|| ''`) as trailing columns 18–20. -/
def expedienteAFila (expediente : Expediente) (numeroExpediente : String)
    (nombreArchivo : String) (observaciones : Option String) : List String :=
  [expediente.tipo,
   renderInt expediente.exp,
   expediente.doc,
   renderInt expediente.folios,
   expediente.fecha_recepcion,
   expediente.hora,
   expediente.fecha_emision,
   expediente.tipo_documento,
   expediente.nro_documento,
   expediente.emisor_responsable,
   expediente.emisor_area,
   expediente.asunto,
   expediente.referencia,
   expediente.prioridad,
   expediente.estado,
   expediente.derivado_area,
   expediente.derivado_responsable,
   expediente.tipo_derivado,
   numeroExpediente,
   nombreArchivo,
   (observaciones.getD "")]

/-- Cell access `fila[i]`, with the out-of-range `undefined` modelled as `""`
(both feed the same falsy defaults downstream). -/
def celda (fila : List String) (i : Nat) : String :=
  fila.getD i ""

/-- TS `ExpedienteService.filaAExpediente`: positional read of columns 0–17 with
the source's falsy defaults (`|| 'Externo'`, `parseInt(...) || 0`, etc.). -/
def filaAExpediente (fila : List String) : Expediente :=
  { tipo := jsOr (celda fila 0) "Externo",
    exp := (jsParseInt (celda fila 1)).getD 0,
    doc := jsOr (celda fila 2) "",
    folios := match jsParseInt (celda fila 3) with
      | some n => if n = 0 then 1 else n
      | none => 1,
    fecha_recepcion := jsOr (celda fila 4) "",
    hora := jsOr (celda fila 5) "",
    fecha_emision := jsOr (celda fila 6) "",
    tipo_documento := jsOr (celda fila 7) "Formulario",
    nro_documento := jsOr (celda fila 8) "",
    emisor_responsable := jsOr (celda fila 9) "",
    emisor_area := jsOr (celda fila 10) "",
    asunto := jsOr (celda fila 11) "",
    referencia := jsOr (celda fila 12) "",
    prioridad := jsOr (celda fila 13) "Media",
    estado := jsOr (celda fila 14) "Recibido",
    derivado_area := jsOr (celda fila 15) "",
    derivado_responsable := jsOr (celda fila 16) "",
    tipo_derivado := jsOr (celda fila 17) "" }

/-- TS `ExpedienteService.registrarExpediente`: build the record, append its row;
a thrown append error is caught, logged, wrapped and re-thrown
(`Except.error` models the re-throw). -/
def registrarExpediente (env : SheetsEnv) (ahora : Ahora) (archivoInfo : ArchivoInfo)
    (analisis : AnalisisDocumento) (usuario : UsuarioCompleto)
    (observaciones : Option String) : Except String (String × Expediente) :=
  let numeroExpediente := generarNumeroExpediente ahora
  let numeroSecuencial : Int := Int.ofNat (obtenerProximoNumeroSecuencial env)
  let codigoDocumento := generarCodigoDocumento
    (if usuario.es_interno then "Interno" else "Externo") numeroSecuencial
  let expediente : Expediente :=
    { tipo := if usuario.es_interno then "Interno" else "Externo",
      exp := numeroSecuencial,
      doc := codigoDocumento,
      folios := 1,
      fecha_recepcion := ahora.fechaLocale,
      hora := ahora.horaLocale,
      fecha_emision := ahora.fechaLocale,
      tipo_documento := detectarTipoDocumento archivoInfo analisis,
      nro_documento := "",
      emisor_responsable := usuario.nombre_completo,
      emisor_area := usuario.area,
      asunto := analisis.asunto_detectado,
      referencia := "",
      prioridad := analisis.prioridad,
      estado := "Recibido",
      derivado_area := if analisis.area_responsable ≠ usuario.area then
        analisis.area_responsable else "",
      derivado_responsable := "",
      tipo_derivado := "" }
  let fila := expedienteAFila expediente numeroExpediente archivoInfo.file_name observaciones
  match env.appendError with
  | none => Except.ok (numeroExpediente, expediente)
  | some e => Except.error ("No se pudo registrar el expediente: " ++ e)

/-- Row-scan predicate shared by lookup, status update and referral:
`fila.some(celda => celda && celda.toString().includes(numeroExpediente))`. -/
def filaCoincide (numeroExpediente : String) (fila : List String) : Bool :=
  fila.any (fun c => !(c == "") && jsIncludes c numeroExpediente)

/-- TS `ExpedienteService.actualizarEstadoExpediente` as a pure table operation:
`some (i, fila')` means row `i` is rewritten to `fila'`; `none` models the
`return false` paths (trivial table or no matching row, no write). -/
def actualizarEstadoExpediente (filas : List (List String))
    (numeroExpediente nuevoEstado : String) : Option (Nat × List String) :=
  if filas.length ≤ 1 then none
  else
    match jsFindIndex (filaCoincide numeroExpediente) filas with
    | none => none
    | some indice => some (indice, jsSetAt (filas.getD indice []) 14 nuevoEstado)

/-- TS `ExpedienteService.derivarExpediente` as a pure table operation: locate the
row, set status column 14 to "Derivado" and columns 15–17 to the referral
target, owner and kind; `none` models the `return false` paths. -/
def derivarExpediente (filas : List (List String)) (numeroExpediente : String)
    (areaDestino responsableDestino tipoDerivacion : String) : Option (Nat × List String) :=
  if filas.length ≤ 1 then none
  else
    match jsFindIndex (filaCoincide numeroExpediente) filas with
    | none => none
    | some indice =>
      let f0 := filas.getD indice []
      let f1 := jsSetAt f0 14 "Derivado"
      let f2 := jsSetAt f1 15 areaDestino
      let f3 := jsSetAt f2 16 responsableDestino
      let f4 := jsSetAt f3 17 tipoDerivacion
      some (indice, f4)

end ExpedienteService

/-! ## DocumentHandler (src/handlers/document-handler.ts) -/

namespace DocumentHandler

/-- Shape of the ad-hoc degraded record object built by
`generarExpedienteTemporal`. -/
structure ExpedienteTemporal where
  numero : String
  fecha : String
  estado : String
  observaciones : String
deriving DecidableEq, Repr

/-- TS `DocumentHandler.generarExpedienteTemporal`: degraded case identifier and
record used when the main registration fails.  Note the identifier prefix is
the hard-coded literal "2025-", not the current year. -/
def generarExpedienteTemporal (ahora : Ahora) : String × ExpedienteTemporal :=
  let numeroExpediente := "2025-" ++ pad2 ahora.month ++ pad2 ahora.day ++
    pad2 ahora.hour ++ pad2 ahora.minute ++ pad2 ahora.second
  (numeroExpediente,
   { numero := numeroExpediente,
     fecha := ahora.fechaLocale,
     estado := "Recibido (temporal)",
     observaciones := "Registro temporal - pendiente de sincronización" })

/-- Outcome of the registration step inside `procesarDocumento`: either the
successfully registered record, or the synthesized temporary one. -/
inductive RegistroResultado where
  | registrado (numeroExpediente : String) (expediente : Expediente)
  | temporal (numeroExpediente : String) (expediente : ExpedienteTemporal)
deriving DecidableEq, Repr

/-- The try/catch around `registrarExpediente` in
`DocumentHandler.procesarDocumento` (lines 88–108): on a throw, log and
substitute the temporary record; the boolean is `registroExitoso`. -/
def intentoRegistro (env : SheetsEnv) (ahora : Ahora) (archivoInfo : ArchivoInfo)
    (analisis : AnalisisDocumento) (perfil : UsuarioCompleto)
    (observaciones : Option String) : RegistroResultado × Bool :=
  match ExpedienteService.registrarExpediente env ahora archivoInfo analisis perfil
      observaciones with
  | Except.ok r => (RegistroResultado.registrado r.1 r.2, true)
  | Except.error _ =>
    let t := generarExpedienteTemporal ahora
    (RegistroResultado.temporal t.1 t.2, false)

end DocumentHandler

/-! ## Concrete fixtures used in witnesses and counterexamples -/

/-- Internal requester of end-to-end scenario 1 (area "Obras y Desarrollo",
access "User"). -/
def usuarioInterno : UsuarioCompleto :=
  { telegram_id := "@mlopez", nombre := "Maria", apellido_paterno := "Lopez",
    apellido_materno := "Diaz", area := "Obras y Desarrollo", cargo := "Analista",
    acceso := AccesoNivel.User, email := "", telefono := "",
    nombre_completo := "Maria Lopez Diaz", es_interno := true, es_admin := false }

/-- External (citizen) requester fixture. -/
def usuarioExterno : UsuarioCompleto :=
  { telegram_id := "@vecino", nombre := "Juan", apellido_paterno := "Perez",
    apellido_materno := "Rojas", area := "Externo", cargo := "Ciudadano",
    acceso := AccesoNivel.Guest, email := "", telefono := "",
    nombre_completo := "Juan Perez Rojas", es_interno := false, es_admin := false }

/-- Admin-level requester fixture. -/
def usuarioAdmin : UsuarioCompleto :=
  { telegram_id := "@alcalde", nombre := "Rosa", apellido_paterno := "Quispe",
    apellido_materno := "Mamani", area := "Gerencia", cargo := "Gerente",
    acceso := AccesoNivel.Admin, email := "", telefono := "",
    nombre_completo := "Rosa Quispe Mamani", es_interno := true, es_admin := true }

/-- The 2 MB `informe_urgente.pdf` descriptor of end-to-end scenario 1. -/
def archivoInforme : ArchivoInfo :=
  { file_id := "f-inf", file_name := "informe_urgente.pdf",
    file_size := 2 * 1024 * 1024, mime_type := "application/pdf",
    tipo_detectado := TipoArchivo.pdf, extension := "pdf", es_procesable := true }

/-- A small camera-photo descriptor fixture. -/
def archivoFoto : ArchivoInfo :=
  { file_id := "f-foto", file_name := "imagen_1700000000000.jpg",
    file_size := 500 * 1024, mime_type := "image/jpeg",
    tipo_detectado := TipoArchivo.imagen, extension := "jpg", es_procesable := true }

/-- Oversized descriptor used by the C6 witness. -/
def archivoGrande : ArchivoInfo :=
  { file_id := "f-big", file_name := "plano_obras.pdf", file_size := 20 * 1024 * 1024 + 1,
    mime_type := "application/pdf", tipo_detectado := TipoArchivo.pdf,
    extension := "pdf", es_procesable := false }

/-- A fixed registration instant (2025-10-01 10:30:00). -/
def ahoraDemo : Ahora :=
  { year := 2025, month := 10, day := 1, hour := 10, minute := 30, second := 0,
    fechaLocale := "1/10/2025", horaLocale := "10:30" }

/-- A registration instant in the year 2026 (2026-01-01 00:00:00). -/
def ahora2026 : Ahora :=
  { year := 2026, month := 1, day := 1, hour := 0, minute := 0, second := 0,
    fechaLocale := "1/01/2026", horaLocale := "00:00" }

/-- Collaborator environment where every Sheets call succeeds. -/
def envOk : SheetsEnv :=
  { rangoFilasUtilizadas := some 7, nowMs := 1700000000000, appendError := none }

/-- Collaborator environment where the row append throws "network error". -/
def envFallido : SheetsEnv :=
  { rangoFilasUtilizadas := some 7, nowMs := 1700000000000,
    appendError := some "network error" }

/-- Classification decision fixture (as produced for scenario 1, with a
responsible area differing from the requester's own area). -/
def analisisDemo : AnalisisDocumento :=
  { tipo := "Informe", area_responsable := "Secretaría General",
    prioridad := "Muy Urgente", tiempo_estimado := "24 horas",
    observaciones := "Enviado por Analista de Obras y Desarrollo",
    asunto_detectado := "Informe recibido", requiere_revision := false,
    confianza := 1 }

/-- Parsed Claude response carrying an out-of-range confidence of 2. -/
def respuestaClaudeInvalida : AnalisisService.ClaudeAnalisis :=
  { area_responsable := "Legal", prioridad := "Alta",
    asunto_detectado := "pago de proveedor", observaciones := "contrato urgente",
    confianza := 2 }

/-- A well-typed case record whose folio count is zero. -/
def expedienteFolios0 : Expediente :=
  { tipo := "Interno", exp := 7, doc := "C-7", folios := 0,
    fecha_recepcion := "1/10/2025", hora := "10:30", fecha_emision := "1/10/2025",
    tipo_documento := "Informe", nro_documento := "",
    emisor_responsable := "Maria Lopez Diaz", emisor_area := "Obras y Desarrollo",
    asunto := "informe mensual", referencia := "", prioridad := "Media",
    estado := "Recibido", derivado_area := "", derivado_responsable := "",
    tipo_derivado := "" }

/-- The same record with the default folio count of one. -/
def expedienteValido : Expediente :=
  { tipo := "Interno", exp := 7, doc := "C-7", folios := 1,
    fecha_recepcion := "1/10/2025", hora := "10:30", fecha_emision := "1/10/2025",
    tipo_documento := "Informe", nro_documento := "",
    emisor_responsable := "Maria Lopez Diaz", emisor_area := "Obras y Desarrollo",
    asunto := "informe mensual", referencia := "", prioridad := "Media",
    estado := "Recibido", derivado_area := "", derivado_responsable := "",
    tipo_derivado := "" }

/-- A two-row sheet state: header row plus one persisted case row whose column
18 holds the case identifier "2025-1001103000". -/
def filasDemo : List (List String) :=
  [["Tipo", "EXP", "DOC", "Folios", "Fecha Recepcion", "Hora", "Fecha Emision",
    "Tipo Documento", "Nro Documento", "Emisor Responsable", "Emisor Area",
    "Asunto", "Referencia", "Prioridad", "Estado", "Derivado Area",
    "Derivado Responsable", "Tipo Derivado", "Numero", "Archivo", "Observaciones"],
   ["Interno", "7", "C-7", "1", "1/10/2025", "10:30", "1/10/2025", "Informe", "",
    "Maria Lopez Diaz", "Obras y Desarrollo", "informe mensual", "", "Media",
    "Recibido", "", "", "", "2025-1001103000", "informe.pdf", ""]]

/-! ## Helper lemmas about the JS primitive model -/

theorem jsOr_of_ne {s : String} (d : String) (h : s ≠ "") : jsOr s d = s :=
  if_neg h

theorem jsOr_empty_default (s : String) : jsOr s "" = s := by
  by_cases h : s = "" <;> simp [jsOr, h]

theorem jsSetAt_get_self (l : List String) (i : Nat) (v : String) :
    (jsSetAt l i v).get? i = some v := by
  induction i generalizing l with
  | zero => cases l <;> rfl
  | succ i ih =>
    cases l with
    | nil => simpa [jsSetAt] using ih []
    | cons hd tl => simpa [jsSetAt] using ih tl

theorem jsSetAt_get_ne (l : List String) (i j : Nat) (v : String) (hne : j ≠ i)
    (hj : j < l.length) : (jsSetAt l i v).get? j = l.get? j := by
  induction l generalizing i j with
  | nil => simp at hj
  | cons hd tl ih =>
    cases i with
    | zero =>
      cases j with
      | zero => exact absurd rfl hne
      | succ j => rfl
    | succ i =>
      cases j with
      | zero => rfl
      | succ j => simpa [jsSetAt] using ih i j (by omega) (by simpa using hj)

theorem jsSetAt_length (l : List String) (i : Nat) (v : String) :
    (jsSetAt l i v).length = max l.length (i + 1) := by
  induction l generalizing i with
  | nil =>
    induction i with
    | zero => rfl
    | succ i ih => simp [jsSetAt] at ih ⊢; omega
  | cons hd tl ih =>
    cases i with
    | zero => simp [jsSetAt]
    | succ i => simp [jsSetAt, ih]; omega

theorem jsFindIndex_eq_some {α : Type} (p : α → Bool) (l : List α) (i : Nat)
    (h : jsFindIndex p l = some i) :
    ∃ a, l.get? i = some a ∧ p a = true ∧
      ∀ j, j < i → ∀ b, l.get? j = some b → p b = false := by
  induction l generalizing i with
  | nil => simp [jsFindIndex] at h
  | cons hd tl ih =>
    by_cases hp : p hd = true
    · simp [jsFindIndex, hp] at h
      subst h
      exact ⟨hd, rfl, hp, fun j hj => absurd hj (Nat.not_lt_zero j)⟩
    · have hp' : p hd = false := by simpa using hp
      simp [jsFindIndex, hp'] at h
      obtain ⟨i', hi', rfl⟩ := h
      obtain ⟨a, ha, hpa, hprev⟩ := ih i' hi'
      refine ⟨a, ha, hpa, ?_⟩
      intro j hj b hb
      cases j with
      | zero =>
        simp [List.get?] at hb
        subst hb
        exact hp'
      | succ j => exact hprev j (by omega) b (by simpa using hb)

theorem jsFindIndex_eq_none {α : Type} (p : α → Bool) (l : List α) :
    jsFindIndex p l = none ↔ ∀ a ∈ l, p a = false := by
  induction l with
  | nil => simp [jsFindIndex]
  | cons hd tl ih =>
    by_cases hp : p hd = true
    · simp [jsFindIndex, hp]
    · have hp' : p hd = false := by simpa using hp
      simp [jsFindIndex, hp', ih]

theorem digitChar_isDigit : ∀ n, n < 10 → (Nat.digitChar n).isDigit = true := by decide

theorem digitChar_val : ∀ n, n < 10 → (Nat.digitChar n).toNat - 48 = n := by decide

theorem renderNatAux_fuel (n : Nat) : ∀ f1 f2, n < f1 → n < f2 →
    renderNatAux f1 n = renderNatAux f2 n := by
  induction n using Nat.strong_induction_on with
  | _ n ih =>
    intro f1 f2 h1 h2
    cases f1 with
    | zero => omega
    | succ f1 =>
      cases f2 with
      | zero => omega
      | succ f2 =>
        by_cases h10 : n < 10
        · simp [renderNatAux, h10]
        · have hd : n / 10 < n := Nat.div_lt_self (by omega) (by omega)
          simp only [renderNatAux, if_neg h10]
          rw [ih (n / 10) hd f1 f2 (by omega) (by omega)]

theorem renderNatAux_digits (n : Nat) : ∀ fuel, n < fuel →
    ∀ c ∈ renderNatAux fuel n, c.isDigit = true := by
  induction n using Nat.strong_induction_on with
  | _ n ih =>
    intro fuel h
    cases fuel with
    | zero => omega
    | succ fuel =>
      by_cases h10 : n < 10
      · simp only [renderNatAux, if_pos h10]
        intro c hc
        simp at hc
        subst hc
        exact digitChar_isDigit n h10
      · have hd : n / 10 < n := Nat.div_lt_self (by omega) (by omega)
        simp only [renderNatAux, if_neg h10]
        intro c hc
        rcases List.mem_append.mp hc with hc | hc
        · exact ih (n / 10) hd fuel (by omega) c hc
        · simp at hc
          subst hc
          exact digitChar_isDigit (n % 10) (Nat.mod_lt _ (by omega))

theorem renderNatAux_ne_nil (fuel n : Nat) (h : n < fuel) : renderNatAux fuel n ≠ [] := by
  cases fuel with
  | zero => omega
  | succ fuel =>
    by_cases h10 : n < 10
    · simp only [renderNatAux, if_pos h10]
      exact List.cons_ne_nil _ _
    · simp only [renderNatAux, if_neg h10]
      intro hemp
      exact absurd (List.append_eq_nil.mp hemp).2 (List.cons_ne_nil _ _)

theorem parseDigitsAux_append (acc : Nat) (xs ys : List Char) :
    parseDigitsAux acc (xs ++ ys) = parseDigitsAux (parseDigitsAux acc xs) ys := by
  induction xs generalizing acc with
  | nil => rfl
  | cons hd tl ih =>
    rw [List.cons_append]
    show parseDigitsAux (acc * 10 + (hd.toNat - 48)) (tl ++ ys) = _
    rw [ih]
    rfl

theorem parseDigitsAux_render (n : Nat) : ∀ fuel, n < fuel →
    parseDigitsAux 0 (renderNatAux fuel n) = n := by
  induction n using Nat.strong_induction_on with
  | _ n ih =>
    intro fuel h
    cases fuel with
    | zero => omega
    | succ fuel =>
      by_cases h10 : n < 10
      · simp only [renderNatAux, if_pos h10]
        show 0 * 10 + ((Nat.digitChar n).toNat - 48) = n
        rw [digitChar_val n h10]
        omega
      · have hd : n / 10 < n := Nat.div_lt_self (by omega) (by omega)
        simp only [renderNatAux, if_neg h10]
        rw [parseDigitsAux_append, ih (n / 10) hd fuel (by omega)]
        show n / 10 * 10 + ((Nat.digitChar (n % 10)).toNat - 48) = n
        rw [digitChar_val (n % 10) (Nat.mod_lt _ (by omega))]
        have := Nat.div_add_mod n 10
        omega

theorem takeWhile_all {α : Type} (p : α → Bool) (l : List α)
    (h : ∀ a ∈ l, p a = true) : l.takeWhile p = l := by
  induction l with
  | nil => rfl
  | cons hd tl ih =>
    rw [List.takeWhile_cons, if_pos (h hd (by simp))]
    rw [ih (fun a ha => h a (by simp [ha]))]

theorem parseLeadingDigits_render (n : Nat) :
    parseLeadingDigits (renderNatChars n) = some n := by
  have hall := renderNatAux_digits n (n + 1) (by omega)
  have hne := renderNatAux_ne_nil (n + 1) n (by omega)
  unfold parseLeadingDigits renderNatChars
  rw [takeWhile_all _ _ hall]
  rw [if_neg hne, parseDigitsAux_render n (n + 1) (by omega)]

theorem digit_beq_false {c d : Char} (h : c.isDigit = true) (hd : d.isDigit = false) :
    (c == d) = false := by
  cases hbe : (c == d) with
  | false => rfl
  | true =>
    have hc := eq_of_beq hbe
    subst hc
    rw [h] at hd
    cases hd

theorem jsParseIntChars_digit_head (c : Char) (cs : List Char) (hc : c.isDigit = true) :
    jsParseIntChars (c :: cs) =
      (parseLeadingDigits (c :: cs)).map (fun n => (n : Int)) := by
  unfold jsParseIntChars
  rw [List.dropWhile_cons]
  rw [digit_beq_false hc (by decide)]
  simp only [Bool.false_eq_true, if_false]
  rw [digit_beq_false hc (by decide), digit_beq_false hc (by decide)]
  simp

theorem jsParseInt_renderInt (i : Int) : jsParseInt (renderInt i) = some i := by
  cases i with
  | ofNat n =>
    have hall := renderNatAux_digits n (n + 1) (by omega)
    show jsParseIntChars (renderNatChars n) = some (Int.ofNat n)
    cases hcs : renderNatChars n with
    | nil =>
      have hcs' : renderNatAux (n + 1) n = [] := hcs
      exact absurd hcs' (renderNatAux_ne_nil (n + 1) n (by omega))
    | cons c cs =>
      have hcs' : renderNatAux (n + 1) n = c :: cs := hcs
      have hcdig : c.isDigit = true := by
        apply hall
        rw [hcs']
        simp
      rw [jsParseIntChars_digit_head c cs hcdig, ← hcs, parseLeadingDigits_render n]
      simp
  | negSucc m =>
    show jsParseIntChars ('-' :: renderNatChars (m + 1)) = some (Int.negSucc m)
    unfold jsParseIntChars
    rw [List.dropWhile_cons]
    rw [show (('-' : Char) == ' ') = false from by decide]
    simp only [Bool.false_eq_true, if_false]
    rw [show (('-' : Char) == '-') = true from by decide]
    simp only [if_true]
    rw [parseLeadingDigits_render (m + 1)]
    show some (-(((m + 1 : Nat)) : Int)) = some (Int.negSucc m)
    congr 1

/-! ## Claim theorems (first batch) -/

/-- C6: `es_procesable` is true iff the extension is allow-listed, the detected
category is not `desconocido`, and the size is at most `Config.maxFileSize`;
in particular any oversized descriptor is not processable. -/
theorem c6_theorem :
    (∀ a : ArchivoInfo, TelegramService.esArchivoProcesable a = true ↔
      (a.extension ∈ Config.supportedExtensions ∧
       a.tipo_detectado ≠ TipoArchivo.desconocido ∧
       a.file_size ≤ Config.maxFileSize)) ∧
    (∀ a : ArchivoInfo, Config.maxFileSize < a.file_size →
      TelegramService.esArchivoProcesable a = false) := by
  constructor
  · intro a
    simp [TelegramService.esArchivoProcesable, Bool.and_eq_true, decide_eq_true_eq, and_assoc]
  · intro a h
    simp [TelegramService.esArchivoProcesable]
    intro _ _
    omega

/-- C6 witness: a concrete 20 MiB + 1 byte PDF is not processable. -/
theorem c6_witness :
    Config.maxFileSize < archivoGrande.file_size ∧
    TelegramService.esArchivoProcesable archivoGrande = false :=
  ⟨by decide, c6_theorem.2 archivoGrande (by decide)⟩

/-- C7: a filename containing "urgente" (any case) is classified "Muy Urgente",
independently of the requester profile and file metadata. -/
theorem c7_theorem :
    ∀ (nombre : String) (u1 u2 : UsuarioCompleto) (a1 a2 : ArchivoInfo),
    jsIncludes (jsToLower nombre) "urgente" = true →
    AnalisisService.calcularPrioridad nombre u1 a1 = "Muy Urgente" ∧
    AnalisisService.calcularPrioridad nombre u1 a1 =
      AnalisisService.calcularPrioridad nombre u2 a2 := by
  intro nombre u1 u2 a1 a2 h
  have hc : AnalisisService.palabrasUrgentes.any
      (fun palabra => jsIncludes (jsToLower nombre) palabra) = true := by
    simp [AnalisisService.palabrasUrgentes]
    exact Or.inl h
  constructor <;> simp [AnalisisService.calcularPrioridad, hc]

/-- C7 witness: the mixed-case filename "URGENTE_pago.pdf" gets "Muy Urgente"
for two distinct requester profiles. -/
theorem c7_witness :
    jsIncludes (jsToLower "URGENTE_pago.pdf") "urgente" = true ∧
    AnalisisService.calcularPrioridad "URGENTE_pago.pdf" usuarioInterno archivoInforme
      = "Muy Urgente" ∧
    AnalisisService.calcularPrioridad "URGENTE_pago.pdf" usuarioInterno archivoInforme =
      AnalisisService.calcularPrioridad "URGENTE_pago.pdf" usuarioExterno archivoFoto :=
  ⟨by decide,
   c7_theorem "URGENTE_pago.pdf" usuarioInterno usuarioExterno archivoInforme archivoFoto
     (by decide)⟩

/-- C10 (implicit): for an Admin or Super requester the rule-based priority is
"Muy Urgente" on an urgency keyword and "Alta" otherwise — never "Media" nor
"Baja", because the access-level check sits in the branch before the
low-priority keywords. -/
theorem c10_theorem :
    ∀ (nombre : String) (u : UsuarioCompleto) (a : ArchivoInfo),
    u.acceso = AccesoNivel.Admin ∨ u.acceso = AccesoNivel.Super →
    AnalisisService.calcularPrioridad nombre u a =
      (if AnalisisService.palabrasUrgentes.any
          (fun palabra => jsIncludes (jsToLower nombre) palabra)
        then "Muy Urgente" else "Alta") ∧
    AnalisisService.calcularPrioridad nombre u a ≠ "Media" ∧
    AnalisisService.calcularPrioridad nombre u a ≠ "Baja" := by
  intro nombre u a h
  have halta : (AnalisisService.palabrasAltas.any
      (fun palabra => jsIncludes (jsToLower nombre) palabra) ||
      u.acceso == AccesoNivel.Admin || u.acceso == AccesoNivel.Super) = true := by
    rcases h with h | h <;> simp [h]
  by_cases hu : AnalisisService.palabrasUrgentes.any
      (fun palabra => jsIncludes (jsToLower nombre) palabra) = true
  · simp [AnalisisService.calcularPrioridad, hu]
  · rw [Bool.not_eq_true] at hu
    simp [AnalisisService.calcularPrioridad, hu, halta]

/-- C10 witness: an Admin submitting the low-priority-keyword filename
"saludo_navidad.pdf" still gets neither "Media" nor "Baja". -/
theorem c10_witness :
    AnalisisService.calcularPrioridad "saludo_navidad.pdf" usuarioAdmin archivoInforme
      ≠ "Media" ∧
    AnalisisService.calcularPrioridad "saludo_navidad.pdf" usuarioAdmin archivoInforme
      ≠ "Baja" :=
  ( c10_theorem "saludo_navidad.pdf" usuarioAdmin archivoInforme (Or.inl rfl)).2

/-- C3 counterexample: in scenario 1 the keyword "informe" matches before the
pdf-extension branch, so the detected type is "Informe", not "Documento PDF". -/
theorem c3_counterexample :
    (AnalisisService.analizarLocal archivoInforme usuarioInterno (some "documento")).tipo
      = "Informe" ∧
    ("Informe" : String) ≠ "Documento PDF" := by
  constructor <;> decide

/-- C3 (amended): scenario 1 — internal requester from "Obras y Desarrollo" with
access "User" submitting the 2 MB `informe_urgente.pdf` — yields type "Informe"
(keyword match wins over the pdf-extension branch), area "Secretaría General",
priority "Muy Urgente", turnaround "24 horas", and no manual review. -/
theorem c3_theorem :
    (AnalisisService.analizarLocal archivoInforme usuarioInterno (some "documento")).tipo
      = "Informe" ∧
    (AnalisisService.analizarLocal archivoInforme usuarioInterno
      (some "documento")).area_responsable = "Secretaría General" ∧
    (AnalisisService.analizarLocal archivoInforme usuarioInterno
      (some "documento")).prioridad = "Muy Urgente" ∧
    (AnalisisService.analizarLocal archivoInforme usuarioInterno
      (some "documento")).tiempo_estimado = "24 horas" ∧
    (AnalisisService.analizarLocal archivoInforme usuarioInterno
      (some "documento")).requiere_revision = false := by
  refine ⟨?_, ?_, ?_, ?_, ?_⟩ <;> decide

/-- C1 counterexample: with the row append throwing "network error",
`ExpedienteService.registrarExpediente` does not catch-and-return a degraded
record; it re-throws the wrapped persistence error to its caller. -/
theorem c1_counterexample :
    ExpedienteService.registrarExpediente envFallido ahoraDemo archivoInforme
      analisisDemo usuarioInterno none =
    Except.error "No se pudo registrar el expediente: network error" := rfl

/-- C1 (amended): on append failure `registrarExpediente` wraps and re-throws
the error; the degraded path lives one level up — the try/catch inside
`DocumentHandler.procesarDocumento` catches it and substitutes the temporary
record, whose status "Recibido (temporal)" contains "temporal" — so the
persistence error never escapes the document-processing pipeline. -/
theorem c1_theorem :
    ∀ (env : SheetsEnv) (ahora : Ahora) (archivoInfo : ArchivoInfo)
      (analisis : AnalisisDocumento) (perfil : UsuarioCompleto)
      (observaciones : Option String) (e : String),
    env.appendError = some e →
    ExpedienteService.registrarExpediente env ahora archivoInfo analisis perfil
        observaciones =
      Except.error ("No se pudo registrar el expediente: " ++ e) ∧
    DocumentHandler.intentoRegistro env ahora archivoInfo analisis perfil observaciones =
      (DocumentHandler.RegistroResultado.temporal
        (DocumentHandler.generarExpedienteTemporal ahora).1
        (DocumentHandler.generarExpedienteTemporal ahora).2, false) ∧
    jsIncludes (DocumentHandler.generarExpedienteTemporal ahora).2.estado "temporal"
      = true := by
  intro env ahora a an u obs e henv
  have hreg : ExpedienteService.registrarExpediente env ahora a an u obs =
      Except.error ("No se pudo registrar el expediente: " ++ e) := by
    unfold ExpedienteService.registrarExpediente
    rw [henv]
  refine ⟨hreg, ?_, ?_⟩
  · unfold DocumentHandler.intentoRegistro
    rw [hreg]
  · show jsIncludes "Recibido (temporal)" "temporal" = true
    decide

/-- C1 witness: the amended behaviour at the concrete failing environment. -/
theorem c1_witness :
    envFallido.appendError = some "network error" ∧
    DocumentHandler.intentoRegistro envFallido ahoraDemo archivoInforme analisisDemo
        usuarioInterno none =
      (DocumentHandler.RegistroResultado.temporal
        (DocumentHandler.generarExpedienteTemporal ahoraDemo).1
        (DocumentHandler.generarExpedienteTemporal ahoraDemo).2, false) ∧
    jsIncludes (DocumentHandler.generarExpedienteTemporal ahoraDemo).2.estado "temporal"
      = true :=
  ⟨rfl, (c1_theorem envFallido ahoraDemo archivoInforme analisisDemo usuarioInterno none
    "network error" rfl).2⟩

/-- C2 counterexample: a successful registration whose classified responsible
area differs from the requester's own area yields a fresh record with
`estado = "Recibido"` and a non-empty `derivado_area` — before any referral
operation, refuting both halves of the claimed invariant. -/
theorem c2_counterexample :
    (ExpedienteService.registrarExpediente envOk ahoraDemo archivoInforme analisisDemo
        usuarioInterno none).toOption.map
      (fun p => (p.2.estado, p.2.derivado_area)) =
      some ("Recibido", "Secretaría General") ∧
    ("Secretaría General" : String) ≠ "" ∧ ("Recibido" : String) ≠ "Derivado" := by
  refine ⟨rfl, by decide, by decide⟩

/-- C2 (amended): at registration `derivado_responsable` and `tipo_derivado`
are empty and `estado = "Recibido"`, while `derivado_area` is pre-populated
with the classified responsible area exactly when it differs from the
requester's own area; the referral operation writes `estado = "Derivado"`
and all three referral columns 15–17. -/
theorem c2_theorem :
    (∀ (env : SheetsEnv) (ahora : Ahora) (archivoInfo : ArchivoInfo)
        (analisis : AnalisisDocumento) (usuario : UsuarioCompleto)
        (observaciones : Option String) (num : String) (e : Expediente),
      ExpedienteService.registrarExpediente env ahora archivoInfo analisis usuario
          observaciones = Except.ok (num, e) →
      e.derivado_responsable = "" ∧ e.tipo_derivado = "" ∧ e.estado = "Recibido" ∧
      e.derivado_area = (if analisis.area_responsable ≠ usuario.area then
        analisis.area_responsable else "")) ∧
    (∀ (filas : List (List String)) (num area resp tipo : String) (i : Nat)
        (fila' : List String),
      ExpedienteService.derivarExpediente filas num area resp tipo = some (i, fila') →
      fila'.get? 14 = some "Derivado" ∧ fila'.get? 15 = some area ∧
      fila'.get? 16 = some resp ∧ fila'.get? 17 = some tipo) := by
  constructor
  · intro env ahora a an u obs num e h
    unfold ExpedienteService.registrarExpediente at h
    cases henv : env.appendError with
    | none =>
      rw [henv] at h
      simp only [Except.ok.injEq, Prod.mk.injEq] at h
      obtain ⟨-, rfl⟩ := h
      exact ⟨rfl, rfl, rfl, rfl⟩
    | some err =>
      rw [henv] at h
      simp at h
  · intro filas num area resp tipo i fila' h
    unfold ExpedienteService.derivarExpediente at h
    split at h
    · exact absurd h (by simp)
    · cases hidx : jsFindIndex (ExpedienteService.filaCoincide num) filas with
      | none =>
        rw [hidx] at h
        simp at h
      | some k =>
        rw [hidx] at h
        simp only [Option.some.injEq, Prod.mk.injEq] at h
        obtain ⟨-, rfl⟩ := h
        have hL1 : 15 ≤ (jsSetAt (filas.getD k []) 14 "Derivado").length := by
          rw [jsSetAt_length]; omega
        have hL2 : 16 ≤ (jsSetAt (jsSetAt (filas.getD k []) 14 "Derivado")
            15 area).length := by
          rw [jsSetAt_length]; omega
        have hL3 : 17 ≤ (jsSetAt (jsSetAt (jsSetAt (filas.getD k []) 14 "Derivado")
            15 area) 16 resp).length := by
          rw [jsSetAt_length]; omega
        refine ⟨?_, ?_, ?_, ?_⟩
        · rw [jsSetAt_get_ne _ 17 14 _ (by omega) (by omega),
            jsSetAt_get_ne _ 16 14 _ (by omega) (by omega),
            jsSetAt_get_ne _ 15 14 _ (by omega) (by omega),
            jsSetAt_get_self]
        · rw [jsSetAt_get_ne _ 17 15 _ (by omega) (by omega),
            jsSetAt_get_ne _ 16 15 _ (by omega) (by omega),
            jsSetAt_get_self]
        · rw [jsSetAt_get_ne _ 17 16 _ (by omega) (by omega),
            jsSetAt_get_self]
        · rw [jsSetAt_get_self]

/-- C2 witness: both amended clauses at concrete inputs — a registration with
a differing responsible area, and a referral on the two-row demo sheet. -/
theorem c2_witness :
    ((ExpedienteService.registrarExpediente envOk ahoraDemo archivoInforme analisisDemo
        usuarioInterno none).toOption.map
      (fun p => (p.2.derivado_responsable, p.2.tipo_derivado, p.2.estado)) =
      some ("", "", "Recibido")) ∧
    (∀ fila', ExpedienteService.derivarExpediente filasDemo "2025-1001103000"
        "Secretaría General" "Juan Torres" "Derivado" = some (1, fila') →
      fila'.get? 14 = some "Derivado" ∧
      fila'.get? 15 = some "Secretaría General") := by
  constructor
  · cases hreg : ExpedienteService.registrarExpediente envOk ahoraDemo archivoInforme
        analisisDemo usuarioInterno none with
    | ok p =>
      have h := c2_theorem.1 envOk ahoraDemo archivoInforme analisisDemo usuarioInterno
        none p.1 p.2 (by rw [hreg])
      show some (p.2.derivado_responsable, p.2.tipo_derivado, p.2.estado) =
        some ("", "", "Recibido")
      rw [h.1, h.2.1, h.2.2.1]
    | error err =>
      have hok : (ExpedienteService.registrarExpediente envOk ahoraDemo archivoInforme
          analisisDemo usuarioInterno none).isOk = true := by decide
      rw [hreg] at hok
      cases hok
  · intro fila' h
    have h2 := c2_theorem.2 filasDemo "2025-1001103000" "Secretaría General"
      "Juan Torres" "Derivado" 1 fila' h
    exact ⟨h2.1, h2.2.1⟩

/-- C4: at the 2026-01-01 00:00:00 registration instant the normal generator is
prefixed with the current year while the degraded generator keeps the
hard-coded "2025-" prefix, so the two identifiers differ. -/
theorem c4_theorem :
    ExpedienteService.generarNumeroExpediente ahora2026 = "2026-0101000000" ∧
    (DocumentHandler.generarExpedienteTemporal ahora2026).1 = "2025-0101000000" ∧
    ExpedienteService.generarNumeroExpediente ahora2026 ≠
      (DocumentHandler.generarExpedienteTemporal ahora2026).1 := by
  refine ⟨by decide, by decide, by decide⟩

/-- C5: evaluated at a parsed Claude response carrying `confianza = 2`,
`procesarRespuestaClaude` copies the out-of-range value through, so the
returned confidence exceeds the documented upper bound 1. -/
theorem c5_theorem :
    (AnalisisService.procesarRespuestaClaude respuestaClaudeInvalida archivoInforme
      usuarioInterno).confianza = 2 ∧
    ¬((AnalisisService.procesarRespuestaClaude respuestaClaudeInvalida archivoInforme
      usuarioInterno).confianza ≤ 1) := by
  have h : (AnalisisService.procesarRespuestaClaude respuestaClaudeInvalida archivoInforme
      usuarioInterno).confianza = 2 := by
    show (if (2 : ℚ) = 0 then 8/10 else 2) = 2
    norm_num
  refine ⟨h, ?_⟩
  rw [h]
  norm_num

/-- Supporting fact: the rule-based confidence always lies inside `[0, 1]`. -/
theorem calcularConfianza_bounds :
    ∀ (archivoInfo : ArchivoInfo) (usuario : UsuarioCompleto),
    0 ≤ AnalisisService.calcularConfianza archivoInfo usuario ∧
    AnalisisService.calcularConfianza archivoInfo usuario ≤ 1 := by
  intro a u
  unfold AnalisisService.calcularConfianza
  constructor
  · apply le_min ?_ (by norm_num)
    split_ifs <;> norm_num
  · exact min_le_right _ _

/-- Supporting fact: for the concrete internal requester with a recognized PDF
and an 19-character filename the rule-based confidence is exactly 1
(0.7 + 0.1 + 0.1 + 0.05 + 0.05, capped at 1). -/
theorem calcularConfianza_interno_pdf :
    AnalisisService.calcularConfianza archivoInforme usuarioInterno = 1 := by
  show min (7/10 + 1/10 + 1/10 + 1/20 + 1/20 : ℚ) 1 = 1
  norm_num

/-- C8 counterexample: a type-correct record with `folios = 0` does not survive
the row round trip — `parseInt(...) || 1` turns the zero into the default 1. -/
theorem c8_counterexample :
    ExpedienteService.filaAExpediente
      (ExpedienteService.expedienteAFila expedienteFolios0 "2025-1001103000"
        "informe.pdf" none) ≠ expedienteFolios0 ∧
    (ExpedienteService.filaAExpediente
      (ExpedienteService.expedienteAFila expedienteFolios0 "2025-1001103000"
        "informe.pdf" none)).folios = 1 ∧
    expedienteFolios0.folios = 0 := by
  refine ⟨by decide, by decide, by decide⟩

/-- C8 (amended): the row round trip reproduces every field of a record whose
union-typed fields are (as in TypeScript) non-empty strings and whose folio
count is non-zero; `folios = 0` is the sole excluded value, hit by the
falsy-default `parseInt(...) || 1`. -/
theorem c8_theorem :
    ∀ (e : Expediente) (numeroExpediente nombreArchivo : String)
      (observaciones : Option String),
    e.tipo ≠ "" → e.tipo_documento ≠ "" → e.prioridad ≠ "" → e.estado ≠ "" →
    e.folios ≠ 0 →
    ExpedienteService.filaAExpediente
      (ExpedienteService.expedienteAFila e numeroExpediente nombreArchivo observaciones)
      = e := by
  intro e num nom obs h1 h2 h3 h4 h5
  obtain ⟨tipo, exp, doc, folios, fr, hora, fe, td, nd, er, ea, asunto, ref, pr, es,
    da, dr, tde⟩ := e
  simp only [ne_eq] at h1 h2 h3 h4 h5
  simp [ExpedienteService.expedienteAFila, ExpedienteService.filaAExpediente,
    ExpedienteService.celda, jsParseInt_renderInt, jsOr, h1, h2, h3, h4, h5]
  refine ⟨fun h => h.symm, fun h => h.symm, fun h => h.symm, fun h => h.symm,
    fun h => h.symm, fun h => h.symm, fun h => h.symm, fun h => h.symm,
    fun h => h.symm, fun h => h.symm, fun h => h.symm, fun h => h.symm⟩

/-- C8 witness: a concrete valid record round-trips unchanged. -/
theorem c8_witness :
    ExpedienteService.filaAExpediente
      (ExpedienteService.expedienteAFila expedienteValido "2025-1001103000"
        "informe.pdf" (some "nota")) = expedienteValido :=
  c8_theorem expedienteValido "2025-1001103000" "informe.pdf" (some "nota")
    (by decide) (by decide) (by decide) (by decide) (by decide)

/-- C9: the status update locates the first row (in scan order) one of whose
non-empty cells contains the identifier, rewrites exactly the status column 14
of that row, leaves every other in-range column unchanged, and performs no
write (returning false) when the table is trivial or no row matches. -/
theorem c9_theorem :
    ∀ (filas : List (List String)) (num estado : String),
    (∀ i fila', ExpedienteService.actualizarEstadoExpediente filas num estado
        = some (i, fila') →
      1 < filas.length ∧
      ∃ orig, filas.get? i = some orig ∧
        ExpedienteService.filaCoincide num orig = true ∧
        (∀ j, j < i → ∀ r, filas.get? j = some r →
          ExpedienteService.filaCoincide num r = false) ∧
        fila' = jsSetAt orig 14 estado ∧
        fila'.get? 14 = some estado ∧
        (∀ j, j ≠ 14 → j < orig.length → fila'.get? j = orig.get? j)) ∧
    (ExpedienteService.actualizarEstadoExpediente filas num estado = none ↔
      filas.length ≤ 1 ∨
      ∀ fila ∈ filas, ExpedienteService.filaCoincide num fila = false) := by
  intro filas num estado
  constructor
  · intro i fila' h
    unfold ExpedienteService.actualizarEstadoExpediente at h
    split at h
    · exact absurd h (by simp)
    · rename_i hlen
      cases hidx : jsFindIndex (ExpedienteService.filaCoincide num) filas with
      | none =>
        rw [hidx] at h
        simp at h
      | some k =>
        rw [hidx] at h
        simp only [Option.some.injEq, Prod.mk.injEq] at h
        obtain ⟨rfl, rfl⟩ := h
        obtain ⟨orig, horig, hmatch, hprev⟩ := jsFindIndex_eq_some _ _ _ hidx
        have hgetD : filas.getD k [] = orig := by
          unfold List.getD
          rw [horig]
          rfl
        rw [hgetD]
        refine ⟨by omega, orig, horig, hmatch, hprev, rfl, jsSetAt_get_self _ _ _, ?_⟩
        intro j hj hjl
        exact jsSetAt_get_ne _ _ _ _ hj hjl
  · unfold ExpedienteService.actualizarEstadoExpediente
    by_cases hlen : filas.length ≤ 1
    · simp [hlen]
    · simp only [if_neg hlen]
      cases hidx : jsFindIndex (ExpedienteService.filaCoincide num) filas with
      | none =>
        constructor
        · intro _
          exact Or.inr ((jsFindIndex_eq_none _ _).mp hidx)
        · intro _
          rfl
      | some k =>
        constructor
        · intro hcontr
          exact absurd hcontr (by simp)
        · intro hall
          obtain ⟨orig, horig, hmatch, -⟩ := jsFindIndex_eq_some _ _ _ hidx
          rcases hall with hall | hall
          · omega
          · have : ExpedienteService.filaCoincide num orig = false :=
              hall orig (List.get?_mem horig)
            rw [hmatch] at this
            cases this

/-- C9 witness: updating the demo sheet by identifier rewrites row 1 in place
and its status cell reads back as the new status. -/
theorem c9_witness :
    ExpedienteService.actualizarEstadoExpediente filasDemo "2025-1001103000" "Atendido"
      = some (1, jsSetAt (filasDemo.getD 1 []) 14 "Atendido") ∧
    (jsSetAt (filasDemo.getD 1 []) 14 "Atendido").get? 14 = some "Atendido" := by
  refine ⟨by decide, ?_⟩
  obtain ⟨-, orig, horig, -, -, -, h14, -⟩ :=
    (c9_theorem filasDemo "2025-1001103000" "Atendido").1 1
      (jsSetAt (filasDemo.getD 1 []) 14 "Atendido") (by decide)
  exact h14
